import Mathlib

/-!
Shallow embedding of `src/main.rs` (a vulkano/winit instanced-triangle demo).

The render loop's per-tick behaviour (the `RedrawEventsCleared` arm of the
event-loop closure, main.rs lines 296-385) is modelled as a pure function
from the loop's captured mutable state plus a per-tick environment (window
size, the results of the three runtime-fallible platform calls
`Swapchain::recreate`, `acquire_next_image`, `then_signal_fence_and_flush`,
and the current elapsed time) to an outcome: either a Rust `panic!`/`unwrap`
abort, or a new state together with a trace of the side effects the tick
performed (cleanup, recreate attempt, image acquisition, command recording,
submission/presentation, error logging).

`f64` values are idealised as rationals extended with the IEEE special
values (+inf, -inf, NaN); division by zero follows IEEE-754 sign rules
(the model has no negative zero).  The infallible builder/validation
`unwrap`s (command-buffer construction, `then_execute`) are deterministic
validation successes for this fixed correct usage and are modelled as
always succeeding; the three genuinely device-dependent fallible calls are
environment inputs.
-/

namespace CoolVulkano

/-- Idealised `f64`: exact rationals plus the IEEE special values. -/
inductive F64 where
  | finite (q : ℚ)
  | inf
  | negInf
  | nan
deriving DecidableEq

namespace F64

/-- IEEE `isFinite`. -/
def isFinite : F64 → Bool
  | finite _ => true
  | _ => false

/-- IEEE-754 division on the idealised `f64` (rounding idealised away;
zero is unsigned, treated as +0). -/
def div : F64 → F64 → F64
  | finite a, finite b =>
      if b = 0 then (if a = 0 then nan else if 0 < a then inf else negInf)
      else finite (a / b)
  | finite _, inf => finite 0
  | finite _, negInf => finite 0
  | inf, finite b => if 0 ≤ b then inf else negInf
  | negInf, finite b => if 0 ≤ b then negInf else inf
  | _, _ => nan

/-- Embedding of a Rust `u32`/`usize` cast to `f64` (exact). -/
def ofNat (n : Nat) : F64 := finite n

/-- Is the value a finite number inside `[0, 1]`? -/
def inUnit : F64 → Bool
  | finite q => decide (0 ≤ q ∧ q ≤ 1)
  | _ => false

end F64

/-- The Rust `v as f32` narrowing cast: specials are preserved; rounding of
finite values is idealised as exact. -/
def f64_as_f32 (v : F64) : F64 := v

/-- `winit::dpi::PhysicalSize`: a width/height pair in pixels. -/
structure Extent where
  width : Nat
  height : Nat
deriving DecidableEq

/-- `vulkano::pipeline::graphics::viewport::Viewport` (main.rs 262-266). -/
structure Viewport where
  origin : ℚ × ℚ
  dimensions : ℚ × ℚ
  depth_range_lo : ℚ
  depth_range_hi : ℚ
deriving DecidableEq

/-- The initial dynamic viewport (main.rs 262-266): origin `[0,0]`,
dimensions `[0,0]`, depth range `0..1`. -/
def initial_viewport : Viewport :=
  { origin := (0, 0), dimensions := (0, 0), depth_range_lo := 0, depth_range_hi := 1 }

/-- The vertex type (main.rs 159-165): 2D position and RGBA color. -/
structure Vertex where
  position : ℚ × ℚ
  color : ℚ × ℚ × ℚ × ℚ
deriving DecidableEq

/-- The fixed triangle (main.rs 167-180). -/
def vertices : List Vertex :=
  [ { position := (-1/2, -1/4), color := (1, 0, 0, 1) }
  , { position := (0, 1/2), color := (0, 1, 0, 1) }
  , { position := (1/4, -1/10), color := (0, 0, 1, 1) } ]

/-- `vertex_buffer` (main.rs 182-184): the GPU buffer holding `vertices`;
only its contents/length are observable here. -/
def vertex_buffer : List Vertex := vertices

/-- `background_color` (main.rs 41): `[0.1, 0.1, 0.1, 1.0]`. -/
def background_color : List ℚ := [1/10, 1/10, 1/10, 1]

/-- `swapchain_buffers_count` (main.rs 42): triple buffering. -/
def swapchain_buffers_count : Nat := 3

/-- `instance_count` (main.rs 43). -/
def instance_count : Nat := 1000

/-- `vertex_shader::ty::PushConstantData` (main.rs 197-201, 338-342):
elapsed time and normalized mouse position, all `f32`. -/
structure PushConstantData where
  time : F64
  x : F64
  y : F64
deriving DecidableEq

/-- The commands recorded into the per-frame command buffer
(main.rs 345-361), in recording order.  A framebuffer is identified by the
extent of its swapchain image. -/
inductive Cmd where
  | beginRenderPass (clear_values : List ℚ) (framebuffer : Extent)
  | setViewport (first_viewport : Nat) (v : Viewport)
  | bindPipelineGraphics
  | bindVertexBuffers (first_binding : Nat)
  | pushConstants (offset : Nat) (pc : PushConstantData)
  | draw (vertex_count : Nat) (inst_count : Nat) (first_vertex : Nat) (first_instance : Nat)
  | endRenderPass
deriving DecidableEq

/-- The `previous_frame_end` future (main.rs 271, 364-385): either the
already-complete `sync::now` marker or the fence of a submitted frame. -/
inductive FrameEnd where
  | nowMarker
  | frameFence (cmds : List Cmd) (image_num : Nat)
deriving DecidableEq

/-- The mutable state captured by the event-loop closure
(main.rs 262-274): recreate flag, previous-frame future, mouse position,
dynamic viewport, per-image framebuffers (identified by their image
extents), and the current swapchain's image extent. -/
structure LoopState where
  recreate_swapchain : Bool
  previous_frame_end : Option FrameEnd
  mouse_pos : F64 × F64
  viewport : Viewport
  framebuffers : List Extent
  swapchain_extent : Extent
deriving DecidableEq

/-- Result of `Swapchain::recreate` (main.rs 303-310): success yields the
new images (their extents); the two error classes the code distinguishes. -/
inductive RecreateResult where
  | ok (new_images : List Extent)
  | imageExtentNotSupported
  | otherError
deriving DecidableEq

/-- Result of `acquire_next_image` (main.rs 317-325): success yields an
image index and the suboptimal flag; the two error classes the code
distinguishes. -/
inductive AcquireResult where
  | ok (image_num : Nat) (suboptimal : Bool)
  | outOfDate
  | otherError
deriving DecidableEq

/-- Result of `then_signal_fence_and_flush` (main.rs 373-385). -/
inductive FlushResult where
  | ok
  | outOfDate
  | otherError
deriving DecidableEq

/-- The per-tick environment: everything the redraw handler reads from the
platform during one `RedrawEventsCleared` iteration. -/
structure TickEnv where
  dimensions : Extent
  recreate_result : RecreateResult
  acquire_result : AcquireResult
  elapsed_time : F64
  flush_result : FlushResult
deriving DecidableEq

/-- Observable side effects of one redraw tick, in order. -/
inductive Effect where
  | cleanupFinished
  | recreateAttempt (extent : Extent)
  | acquireImage
  | recordCommands (cmds : List Cmd)
  | submitAndPresent (cmds : List Cmd) (image_num : Nat)
  | logFlushError
deriving DecidableEq

/-- Outcome of one redraw tick: a Rust panic (process abort) or a normal
return with the updated state and the effect trace. -/
inductive TickOutcome where
  | panic (msg : String) (trace : List Effect)
  | ret (s : LoopState) (trace : List Effect)
deriving DecidableEq

/-- Outcome of the swapchain-recreation block (main.rs 302-315): abort,
early `return`, or fall through to acquisition with an updated state. -/
inductive RecreateOutcome where
  | panic (msg : String) (trace : List Effect)
  | earlyReturn (s : LoopState) (trace : List Effect)
  | proceed (s : LoopState) (trace : List Effect)
deriving DecidableEq

/-- `window_size_dependent_setup` (main.rs 391-413): sets the viewport
dimensions from the first image's extent and builds one framebuffer per
image.  `none` models the `images[0]` index panic on an empty image list. -/
def window_size_dependent_setup (images : List Extent) (viewport : Viewport) :
    Option (List Extent × Viewport) :=
  match images with
  | [] => none
  | i0 :: _ =>
      some (images, { viewport with dimensions := ((i0.width : ℚ), (i0.height : ℚ)) })

/-- The `if recreate_swapchain` block (main.rs 302-315). -/
def recreateStage (s : LoopState) (env : TickEnv) (tr : List Effect) : RecreateOutcome :=
  if s.recreate_swapchain then
    match env.recreate_result with
    | .ok new_images =>
        match window_size_dependent_setup new_images s.viewport with
        | none => .panic "index out of bounds" (tr ++ [.recreateAttempt env.dimensions])
        | some (fbs, vp) =>
            .proceed
              { s with
                swapchain_extent := env.dimensions
                framebuffers := fbs
                viewport := vp
                recreate_swapchain := false }
              (tr ++ [.recreateAttempt env.dimensions])
    | .imageExtentNotSupported => .earlyReturn s (tr ++ [.recreateAttempt env.dimensions])
    | .otherError => .panic "Failed to recreate swapchain" (tr ++ [.recreateAttempt env.dimensions])
  else .proceed s tr

/-- The per-frame push constants (main.rs 338-342). -/
def make_push_constants (s : LoopState) (env : TickEnv) : PushConstantData :=
  { time := env.elapsed_time
    x := f64_as_f32 s.mouse_pos.1
    y := f64_as_f32 s.mouse_pos.2 }

/-- The command sequence recorded into the one-time-submit command buffer
(main.rs 345-361). -/
def record_commands (s : LoopState) (env : TickEnv) (fb : Extent) : List Cmd :=
  [ .beginRenderPass background_color fb
  , .setViewport 0 s.viewport
  , .bindPipelineGraphics
  , .bindVertexBuffers 0
  , .pushConstants 0 (make_push_constants s env)
  , .draw vertex_buffer.length instance_count 0 0
  , .endRenderPass ]

/-- The submit/present chain and the match on its flush result
(main.rs 364-385).  The `none` branch models the
`previous_frame_end.take().unwrap()` panic (main.rs 364-366). -/
def submitStage (s : LoopState) (env : TickEnv) (cmds : List Cmd) (image_num : Nat)
    (tr : List Effect) : TickOutcome :=
  match s.previous_frame_end with
  | none => .panic "previous_frame_end take unwrap" tr
  | some _ =>
    let tr := tr ++ [.submitAndPresent cmds image_num]
    match env.flush_result with
    | .ok =>
        .ret { s with previous_frame_end := some (.frameFence cmds image_num) } tr
    | .outOfDate =>
        .ret { s with recreate_swapchain := true, previous_frame_end := some .nowMarker } tr
    | .otherError =>
        .ret { s with previous_frame_end := some .nowMarker } (tr ++ [.logFlushError])

/-- Image acquisition, the suboptimal check, command recording, and
submission (main.rs 317-362).  The `get?` `none` branch models the
`framebuffers[image_num]` index panic. -/
def acquireStage (s : LoopState) (env : TickEnv) (tr : List Effect) : TickOutcome :=
  let tr := tr ++ [.acquireImage]
  match env.acquire_result with
  | .outOfDate => .ret { s with recreate_swapchain := true } tr
  | .otherError => .panic "Failed to acquire next image" tr
  | .ok image_num suboptimal =>
    let s := if suboptimal then { s with recreate_swapchain := true } else s
    match s.framebuffers.get? image_num with
    | none => .panic "index out of bounds" tr
    | some fb =>
        let cmds := record_commands s env fb
        submitStage s env cmds image_num (tr ++ [.recordCommands cmds])

/-- One `RedrawEventsCleared` iteration (main.rs 296-386): the zero-size
early return, the `previous_frame_end` unwrap at `cleanup_finished`, then
the recreate, acquire and submit stages. -/
def redrawTick (s : LoopState) (env : TickEnv) : TickOutcome :=
  if env.dimensions.width = 0 ∨ env.dimensions.height = 0 then .ret s []
  else
    match s.previous_frame_end with
    | none => .panic "previous_frame_end unwrap" []
    | some _ =>
      match recreateStage s env [.cleanupFinished] with
      | .panic m t => .panic m t
      | .earlyReturn s1 t => .ret s1 t
      | .proceed s1 t => acquireStage s1 env t

/-- The `CursorMoved` arm (main.rs 277-283): store the event position
divided componentwise by the window's current inner size. -/
def cursorMoved (s : LoopState) (dims : Extent) (px py : F64) : LoopState :=
  { s with mouse_pos := (F64.div px (F64.ofNat dims.width), F64.div py (F64.ofNat dims.height)) }

/-- `previous_frame_end`'s initial value (main.rs 271):
`Some(sync::now(..).boxed())`, an already-complete marker. -/
def initial_previous_frame_end : Option FrameEnd := some .nowMarker

/-- `min_image_count` for swapchain creation (main.rs 126-138). -/
def compute_min_image_count (requested min_supported : Nat) (max_image_count : Option Nat) :
    Nat :=
  match max_image_count with
  | none => max requested min_supported
  | some limit => min (max requested min_supported) limit

/-- `image_format` (main.rs 119-124): the first surface format's pixel
format; `none` models the `[0]` index panic on an empty format list. -/
def chosen_image_format {α β : Type} (surface_formats : List (α × β)) : Option α :=
  (surface_formats.get? 0).map Prod.fst

/-- `PhysicalDeviceType` (main.rs 81-85). -/
inductive PhysicalDeviceType where
  | discreteGpu
  | integratedGpu
  | virtualGpu
  | cpu
  | other
deriving DecidableEq

/-- The `min_by_key` ranking of device types (main.rs 80-86). -/
def device_type_rank : PhysicalDeviceType → Nat
  | .discreteGpu => 0
  | .integratedGpu => 1
  | .virtualGpu => 2
  | .cpu => 3
  | .other => 4

/-- A queue family as the selection code observes it (main.rs 73-76):
`supports_graphics()` and `supports_surface(..)` (a `Result`, read through
`unwrap_or(false)`). -/
structure QueueFamily where
  supports_graphics : Bool
  supports_surface : Option Bool
deriving DecidableEq

/-- A physical device as the selection code observes it (main.rs 64-88). -/
structure PhysDevice where
  supports_required_extensions : Bool
  queue_families : List QueueFamily
  device_type : PhysicalDeviceType
deriving DecidableEq

/-- The queue-family predicate of the `find` (main.rs 73-76). -/
def queue_family_suitable (qf : QueueFamily) : Bool :=
  qf.supports_graphics && qf.supports_surface.getD false

/-- Does a device pass both filters of the selection chain? -/
def device_passes (d : PhysDevice) : Bool :=
  d.supports_required_extensions && d.queue_families.any queue_family_suitable

/-- The candidate pairs after `.filter(..).filter_map(..)` (main.rs 64-78). -/
def device_candidates (devices : List PhysDevice) : List (PhysDevice × QueueFamily) :=
  (devices.filter (fun d => d.supports_required_extensions)).filterMap
    (fun d => (d.queue_families.find? queue_family_suitable).map (fun qf => (d, qf)))

/-- The sort key of a candidate pair. -/
def candidate_rank (c : PhysDevice × QueueFamily) : Nat := device_type_rank c.1.device_type

/-- The fold underlying Rust `Iterator::min_by_key`: keep the current best
and replace it only on a strictly smaller key, so ties keep the earlier
element. -/
def pick_min_fold (c : PhysDevice × QueueFamily) (cs : List (PhysDevice × QueueFamily)) :
    PhysDevice × QueueFamily :=
  cs.foldl (fun best d => if candidate_rank d < candidate_rank best then d else best) c

/-- Rust `Iterator::min_by_key` over the candidate list: `none` on an empty
iterator, else the first element with minimal key. -/
def min_by_rank : List (PhysDevice × QueueFamily) → Option (PhysDevice × QueueFamily)
  | [] => none
  | c :: cs => some (pick_min_fold c cs)

/-- The whole selection chain (main.rs 64-88), `none` modelling the final
`unwrap` panic. -/
def select_physical_device (devices : List PhysDevice) : Option (PhysDevice × QueueFamily) :=
  min_by_rank (device_candidates devices)

/-- Is the effect a submission/presentation? -/
def Effect.isSubmit : Effect → Bool
  | .submitAndPresent _ _ => true
  | _ => false

/-- Is the effect the recording of a command buffer? -/
def Effect.isRecord : Effect → Bool
  | .recordCommands _ => true
  | _ => false

/-- Is the command a draw call? -/
def Cmd.isDraw : Cmd → Bool
  | .draw _ _ _ _ => true
  | _ => false

/-- A concrete loop state used to instantiate the theorems below. -/
def demo_state : LoopState :=
  { recreate_swapchain := false
    previous_frame_end := some .nowMarker
    mouse_pos := (.finite 0, .finite 0)
    viewport := initial_viewport
    framebuffers := [⟨800, 600⟩]
    swapchain_extent := ⟨800, 600⟩ }

/-- `demo_state` with the recreate flag raised. -/
def demo_state_needs_recreate : LoopState :=
  { demo_state with recreate_swapchain := true }

/-- A concrete tick environment in which every platform call succeeds. -/
def demo_env_good : TickEnv :=
  { dimensions := ⟨800, 600⟩
    recreate_result := .ok [⟨800, 600⟩]
    acquire_result := .ok 0 false
    elapsed_time := .finite 1
    flush_result := .ok }

/-- `demo_env_good` with a zero-width window. -/
def demo_env_zero : TickEnv :=
  { demo_env_good with dimensions := ⟨0, 600⟩ }

/-- `demo_env_good` with a stale swapchain reported at acquisition. -/
def demo_env_acquire_ood : TickEnv :=
  { demo_env_good with acquire_result := .outOfDate }

/-- `demo_env_good` with an unsupported-extent recreation failure. -/
def demo_env_extent_unsupported : TickEnv :=
  { demo_env_good with recreate_result := .imageExtentNotSupported }

/-- A queue family supporting graphics and presentation. -/
def demo_qf : QueueFamily :=
  { supports_graphics := true, supports_surface := some true }

/-- A suitable integrated-GPU adapter. -/
def demo_integrated : PhysDevice :=
  { supports_required_extensions := true
    queue_families := [demo_qf]
    device_type := .integratedGpu }

/-- A suitable discrete-GPU adapter. -/
def demo_discrete : PhysDevice :=
  { supports_required_extensions := true
    queue_families := [demo_qf]
    device_type := .discreteGpu }

theorem recreateStage_proceed_inv (s : LoopState) (env : TickEnv) (tr : List Effect)
    (s1 : LoopState) (t1 : List Effect)
    (h : recreateStage s env tr = .proceed s1 t1) :
    s1.previous_frame_end = s.previous_frame_end ∧ s1.mouse_pos = s.mouse_pos
      ∧ (t1 = tr ∨ t1 = tr ++ [Effect.recreateAttempt env.dimensions]) := by
  unfold recreateStage at h
  split at h
  · split at h
    · split at h
      · simp at h
      · injection h with h1 h2
        subst h1
        subst h2
        exact ⟨rfl, rfl, Or.inr rfl⟩
    · simp at h
    · simp at h
  · injection h with h1 h2
    subst h1
    subst h2
    exact ⟨rfl, rfl, Or.inl rfl⟩

theorem recreateStage_earlyReturn_inv (s : LoopState) (env : TickEnv) (tr : List Effect)
    (s1 : LoopState) (t1 : List Effect)
    (h : recreateStage s env tr = .earlyReturn s1 t1) :
    s1 = s ∧ t1 = tr ++ [Effect.recreateAttempt env.dimensions] := by
  unfold recreateStage at h
  split at h
  · split at h
    · split at h
      · simp at h
      · simp at h
    · injection h with h1 h2
      exact ⟨h1.symm, h2.symm⟩
    · simp at h
  · simp at h

theorem recreateStage_panic_inv (s : LoopState) (env : TickEnv) (tr : List Effect)
    (m : String) (t : List Effect)
    (h : recreateStage s env tr = .panic m t) :
    m = "index out of bounds" ∨ m = "Failed to recreate swapchain" := by
  unfold recreateStage at h
  split at h
  · split at h
    · split at h
      · injection h with h1 h2
        exact Or.inl h1.symm
      · simp at h
    · simp at h
    · injection h with h1 h2
      exact Or.inr h1.symm
  · simp at h

theorem submitStage_ret_inv (s : LoopState) (env : TickEnv) (cmds : List Cmd) (n : Nat)
    (tr : List Effect) (s' : LoopState) (trace : List Effect)
    (h : submitStage s env cmds n tr = .ret s' trace) :
    s'.previous_frame_end.isSome
      ∧ (trace = tr ++ [Effect.submitAndPresent cmds n]
        ∨ trace = tr ++ [Effect.submitAndPresent cmds n, Effect.logFlushError]) := by
  simp only [submitStage] at h
  split at h
  · simp at h
  · split at h
    · injection h with h1 h2
      subst h1
      subst h2
      exact ⟨rfl, Or.inl rfl⟩
    · injection h with h1 h2
      subst h1
      subst h2
      exact ⟨rfl, Or.inl rfl⟩
    · injection h with h1 h2
      subst h1
      subst h2
      exact ⟨rfl, Or.inr (by simp)⟩

theorem submitStage_panic_inv (s : LoopState) (env : TickEnv) (cmds : List Cmd) (n : Nat)
    (tr : List Effect) (m : String) (t : List Effect)
    (h : submitStage s env cmds n tr = .panic m t) :
    s.previous_frame_end = none ∧ m = "previous_frame_end take unwrap" := by
  simp only [submitStage] at h
  split at h
  · injection h with h1 h2
    exact ⟨by assumption, h1.symm⟩
  · split at h <;> simp at h

theorem acquireStage_ret_inv (s : LoopState) (env : TickEnv) (tr : List Effect)
    (s' : LoopState) (trace : List Effect)
    (h : acquireStage s env tr = .ret s' trace)
    (hsome : s.previous_frame_end.isSome) :
    s'.previous_frame_end.isSome
      ∧ ((env.acquire_result = .outOfDate ∧ trace = tr ++ [Effect.acquireImage])
        ∨ ∃ cmds n subopt fb vp pc,
            env.acquire_result = .ok n subopt
            ∧ cmds = [Cmd.beginRenderPass background_color fb, Cmd.setViewport 0 vp,
                Cmd.bindPipelineGraphics, Cmd.bindVertexBuffers 0, Cmd.pushConstants 0 pc,
                Cmd.draw 3 1000 0 0, Cmd.endRenderPass]
            ∧ pc = { time := env.elapsed_time
                     x := f64_as_f32 s.mouse_pos.1
                     y := f64_as_f32 s.mouse_pos.2 }
            ∧ (trace = tr ++ [Effect.acquireImage, Effect.recordCommands cmds,
                  Effect.submitAndPresent cmds n]
              ∨ trace = tr ++ [Effect.acquireImage, Effect.recordCommands cmds,
                  Effect.submitAndPresent cmds n, Effect.logFlushError])) := by
  simp only [acquireStage] at h
  split at h
  · rename_i heq
    injection h with h1 h2
    subst h1
    subst h2
    exact ⟨hsome, Or.inl ⟨heq, rfl⟩⟩
  · simp at h
  · rename_i image_num subopt heq
    split at h
    · simp at h
    · rename_i fb hfb
      set s2 := if subopt = true then { s with recreate_swapchain := true } else s with hs2
      have hmouse : s2.mouse_pos = s.mouse_pos := by
        cases subopt <;> simp [hs2]
      obtain ⟨h1, h2⟩ := submitStage_ret_inv _ _ _ _ _ _ _ h
      refine ⟨h1, Or.inr
        ⟨record_commands s2 env fb, image_num, subopt, fb, s2.viewport,
          make_push_constants s2 env, heq, rfl, ?_, ?_⟩⟩
      · simp [make_push_constants, hmouse]
      · rcases h2 with h2 | h2 <;> [left; right] <;> simp [h2]

theorem acquireStage_panic_inv (s : LoopState) (env : TickEnv) (tr : List Effect)
    (m : String) (t : List Effect)
    (h : acquireStage s env tr = .panic m t)
    (hsome : s.previous_frame_end.isSome) :
    m = "Failed to acquire next image" ∨ m = "index out of bounds" := by
  simp only [acquireStage] at h
  split at h
  · simp at h
  · injection h with h1 h2
    exact Or.inl h1.symm
  · rename_i image_num subopt heq
    split at h
    · injection h with h1 h2
      exact Or.inr h1.symm
    · rename_i fb hfb
      obtain ⟨h1, h2⟩ := submitStage_panic_inv _ _ _ _ _ _ _ h
      have hpfe :
          (if subopt = true then { s with recreate_swapchain := true } else s).previous_frame_end
            = s.previous_frame_end := by
        cases subopt <;> simp
      rw [hpfe] at h1
      rw [h1] at hsome
      simp at hsome

theorem acquireStage_ok_ret (s : LoopState) (env : TickEnv) (tr : List Effect)
    (n : Nat) (subopt : Bool) (fb : Extent) (pfe : FrameEnd)
    (ha : env.acquire_result = .ok n subopt)
    (hfb : s.framebuffers[n]? = some fb)
    (hpfe : s.previous_frame_end = some pfe) :
    ∃ s' trace, acquireStage s env tr = .ret s' trace := by
  cases subopt
  · cases henv : env.flush_result
    · exact ⟨{ s with previous_frame_end := some (.frameFence (record_commands s env fb) n) },
        tr ++ [Effect.acquireImage, Effect.recordCommands (record_commands s env fb),
          Effect.submitAndPresent (record_commands s env fb) n],
        by simp [acquireStage, ha, hfb, submitStage, hpfe, henv]⟩
    · exact ⟨{ s with recreate_swapchain := true, previous_frame_end := some .nowMarker },
        tr ++ [Effect.acquireImage, Effect.recordCommands (record_commands s env fb),
          Effect.submitAndPresent (record_commands s env fb) n],
        by simp [acquireStage, ha, hfb, submitStage, hpfe, henv]⟩
    · exact ⟨{ s with previous_frame_end := some .nowMarker },
        tr ++ [Effect.acquireImage, Effect.recordCommands (record_commands s env fb),
          Effect.submitAndPresent (record_commands s env fb) n, Effect.logFlushError],
        by simp [acquireStage, ha, hfb, submitStage, hpfe, henv]⟩
  · have hfb2 : ({ s with recreate_swapchain := true } : LoopState).framebuffers[n]?
        = some fb := hfb
    have hpfe2 : ({ s with recreate_swapchain := true } : LoopState).previous_frame_end
        = some pfe := hpfe
    cases henv : env.flush_result
    · exact ⟨{ s with recreate_swapchain := true, previous_frame_end := some (.frameFence (record_commands { s with recreate_swapchain := true } env fb) n) },
        tr ++ [Effect.acquireImage,
          Effect.recordCommands (record_commands { s with recreate_swapchain := true } env fb),
          Effect.submitAndPresent (record_commands { s with recreate_swapchain := true } env fb)
            n],
        by simp [acquireStage, ha, hfb2, submitStage, hpfe2, henv]⟩
    · exact ⟨{ s with recreate_swapchain := true, previous_frame_end := some .nowMarker },
        tr ++ [Effect.acquireImage,
          Effect.recordCommands (record_commands { s with recreate_swapchain := true } env fb),
          Effect.submitAndPresent (record_commands { s with recreate_swapchain := true } env fb)
            n],
        by simp [acquireStage, ha, hfb2, submitStage, hpfe2, henv]⟩
    · exact ⟨{ s with recreate_swapchain := true, previous_frame_end := some .nowMarker },
        tr ++ [Effect.acquireImage,
          Effect.recordCommands (record_commands { s with recreate_swapchain := true } env fb),
          Effect.submitAndPresent (record_commands { s with recreate_swapchain := true } env fb)
            n, Effect.logFlushError],
        by simp [acquireStage, ha, hfb2, submitStage, hpfe2, henv]⟩

theorem redrawTick_record_pc (s : LoopState) (env : TickEnv) (s' : LoopState)
    (trace : List Effect) (cmds : List Cmd)
    (h : redrawTick s env = .ret s' trace)
    (hc : Effect.recordCommands cmds ∈ trace) :
    Cmd.pushConstants 0
      { time := env.elapsed_time
        x := f64_as_f32 s.mouse_pos.1
        y := f64_as_f32 s.mouse_pos.2 } ∈ cmds := by
  unfold redrawTick at h
  split at h
  · injection h with h1 h2
    rw [← h2] at hc
    simp at hc
  · split at h
    · simp at h
    · rename_i val heqpfe
      split at h
      · simp at h
      · rename_i s1 t1 heq
        injection h with h1 h2
        obtain ⟨hs1, ht1⟩ := recreateStage_earlyReturn_inv _ _ _ _ _ heq
        rw [← h2, ht1] at hc
        simp at hc
      · rename_i s1 t1 heq
        obtain ⟨hpfe1, hmouse1, ht1⟩ := recreateStage_proceed_inv _ _ _ _ _ heq
        have hsome1 : s1.previous_frame_end.isSome := by
          rw [hpfe1, heqpfe]
          rfl
        obtain ⟨_, htr⟩ := acquireStage_ret_inv _ _ _ _ _ h hsome1
        rw [← hmouse1]
        rcases htr with ⟨_, htr⟩ | ⟨cmds0, n0, subopt0, fb0, vp0, pc0, _, hshape, hpc, htr⟩
        · rw [htr] at hc
          rcases ht1 with rfl | rfl <;> simp at hc
        · rcases htr with htr | htr <;>
            rw [htr] at hc <;>
            rcases ht1 with rfl | rfl <;>
            simp at hc <;>
            rw [hc, hshape] <;>
            simp [hpc]

/-- C5: for every redraw tick in which the window's drawable size has
width=0 or height=0, the handler returns before any per-frame work: the
state is untouched and the effect trace is empty (no cleanup, recreation,
acquisition, recording or submission), and no error is raised. -/
theorem C5_zero_size_skips_tick (s : LoopState) (env : TickEnv)
    (h : env.dimensions.width = 0 ∨ env.dimensions.height = 0) :
    redrawTick s env = .ret s [] := by
  simp [redrawTick, h]

theorem C5_witness : redrawTick demo_state demo_env_zero = .ret demo_state [] :=
  C5_zero_size_skips_tick demo_state demo_env_zero (Or.inl rfl)

/-- C6: the swapchain image count requested at creation is
`max(3, min_supported)` when the surface reports no maximum image count,
and `min(max(3, min_supported), limit)` when it reports a maximum `limit`
(that is, `clamp(3, min_supported, max_supported)`); the image format is
the first entry of the surface's reported format list. -/
theorem C6_image_count_and_format :
    (∀ min_supported : Nat,
      compute_min_image_count swapchain_buffers_count min_supported none
        = max swapchain_buffers_count min_supported)
    ∧ (∀ min_supported limit : Nat,
      compute_min_image_count swapchain_buffers_count min_supported (some limit)
        = min (max swapchain_buffers_count min_supported) limit)
    ∧ swapchain_buffers_count = 3
    ∧ ∀ (f : Nat × Nat) (rest : List (Nat × Nat)),
        chosen_image_format (f :: rest) = some f.1 :=
  ⟨fun _ => rfl, fun _ _ => rfl, rfl, fun _ _ => rfl⟩

/-- C2: during image acquisition, an OutOfDate error sets the recreate
flag and returns without recording or submitting anything; any other
acquisition error panics; a successful but suboptimal acquisition sets
the recreate flag and still records and submits the frame. -/
theorem C2_acquire_error_handling (s : LoopState) (env : TickEnv) (tr : List Effect) :
    (env.acquire_result = .outOfDate →
      acquireStage s env tr
        = .ret { s with recreate_swapchain := true } (tr ++ [Effect.acquireImage]))
    ∧ (env.acquire_result = .otherError →
      acquireStage s env tr
        = .panic "Failed to acquire next image" (tr ++ [Effect.acquireImage]))
    ∧ (∀ n, env.acquire_result = .ok n true → n < s.framebuffers.length →
        s.previous_frame_end.isSome →
        ∃ s' trace cmds, acquireStage s env tr = .ret s' trace
          ∧ s'.recreate_swapchain = true
          ∧ Effect.recordCommands cmds ∈ trace
          ∧ Effect.submitAndPresent cmds n ∈ trace) := by
  refine ⟨?_, ?_, ?_⟩
  · intro h
    simp [acquireStage, h]
  · intro h
    simp [acquireStage, h]
  · intro n h hn hsome
    obtain ⟨pfe, hpfe⟩ := Option.isSome_iff_exists.mp hsome
    obtain ⟨fb, hfb⟩ : ∃ fb, s.framebuffers[n]? = some fb := ⟨_, List.getElem?_eq_getElem hn⟩
    cases henv : env.flush_result
    · refine ⟨{ s with
                  recreate_swapchain := true
                  previous_frame_end := some (.frameFence
                    (record_commands { s with recreate_swapchain := true } env fb) n) },
        tr ++ [Effect.acquireImage,
          Effect.recordCommands (record_commands { s with recreate_swapchain := true } env fb),
          Effect.submitAndPresent (record_commands { s with recreate_swapchain := true } env fb)
            n],
        record_commands { s with recreate_swapchain := true } env fb, ?_, rfl, by simp, by simp⟩
      simp [acquireStage, h, hfb, submitStage, hpfe, henv]
    · refine ⟨{ s with recreate_swapchain := true, previous_frame_end := some .nowMarker },
        tr ++ [Effect.acquireImage,
          Effect.recordCommands (record_commands { s with recreate_swapchain := true } env fb),
          Effect.submitAndPresent (record_commands { s with recreate_swapchain := true } env fb)
            n],
        record_commands { s with recreate_swapchain := true } env fb, ?_, rfl, by simp, by simp⟩
      simp [acquireStage, h, hfb, submitStage, hpfe, henv]
    · refine ⟨{ s with recreate_swapchain := true, previous_frame_end := some .nowMarker },
        tr ++ [Effect.acquireImage,
          Effect.recordCommands (record_commands { s with recreate_swapchain := true } env fb),
          Effect.submitAndPresent (record_commands { s with recreate_swapchain := true } env fb)
            n, Effect.logFlushError],
        record_commands { s with recreate_swapchain := true } env fb, ?_, rfl, by simp, by simp⟩
      simp [acquireStage, h, hfb, submitStage, hpfe, henv]

theorem C2_witness :
    acquireStage demo_state demo_env_acquire_ood []
      = .ret { demo_state with recreate_swapchain := true } [Effect.acquireImage] :=
  (C2_acquire_error_handling demo_state demo_env_acquire_ood []).1 rfl

/-- C3: on a successful flush the resulting fence becomes the new
`previous_frame_end`; on an OutOfDate flush error the recreate flag is set
and `previous_frame_end` is reset to the already-complete marker; on any
other flush error the error is logged (not fatal) and `previous_frame_end`
is likewise reset; in no case is `previous_frame_end` left empty. -/
theorem C3_flush_error_handling (s : LoopState) (env : TickEnv) (cmds : List Cmd)
    (n : Nat) (tr : List Effect)
    (hsome : s.previous_frame_end.isSome) :
    (env.flush_result = .ok →
      submitStage s env cmds n tr
        = .ret { s with previous_frame_end := some (.frameFence cmds n) }
            (tr ++ [Effect.submitAndPresent cmds n]))
    ∧ (env.flush_result = .outOfDate →
      submitStage s env cmds n tr
        = .ret { s with recreate_swapchain := true, previous_frame_end := some .nowMarker }
            (tr ++ [Effect.submitAndPresent cmds n]))
    ∧ (env.flush_result = .otherError →
      submitStage s env cmds n tr
        = .ret { s with previous_frame_end := some .nowMarker }
            (tr ++ [Effect.submitAndPresent cmds n, Effect.logFlushError]))
    ∧ (∀ s' trace, submitStage s env cmds n tr = .ret s' trace →
        s'.previous_frame_end.isSome) := by
  obtain ⟨pfe, hpfe⟩ := Option.isSome_iff_exists.mp hsome
  refine ⟨?_, ?_, ?_, ?_⟩
  · intro h
    simp [submitStage, hpfe, h]
  · intro h
    simp [submitStage, hpfe, h]
  · intro h
    simp [submitStage, hpfe, h]
  · intro s' trace h
    exact (submitStage_ret_inv _ _ _ _ _ _ _ h).1

theorem C3_witness :
    submitStage demo_state demo_env_good [] 0 []
      = .ret { demo_state with previous_frame_end := some (.frameFence [] 0) }
          [Effect.submitAndPresent [] 0] :=
  (C3_flush_error_handling demo_state demo_env_good [] 0 [] (by decide)).1 rfl

/-- C4: with the recreate flag set, a successful recreation installs the
new swapchain extent, rebuilds one framebuffer per new image and the
dynamic viewport, and clears the flag; an ImageExtentNotSupported failure
returns early with the state (and thus the flag) untouched, so recreation
is retried next tick; any other recreation error panics; and at tick level
the ImageExtentNotSupported case submits nothing. -/
theorem C4_recreate_error_handling (s : LoopState) (env : TickEnv) (tr : List Effect)
    (hflag : s.recreate_swapchain = true) :
    (∀ i rest, env.recreate_result = .ok (i :: rest) →
      recreateStage s env tr = .proceed
        { s with
            swapchain_extent := env.dimensions
            framebuffers := i :: rest
            viewport := { s.viewport with dimensions := ((i.width : ℚ), (i.height : ℚ)) }
            recreate_swapchain := false }
        (tr ++ [Effect.recreateAttempt env.dimensions]))
    ∧ (env.recreate_result = .imageExtentNotSupported →
      recreateStage s env tr = .earlyReturn s (tr ++ [Effect.recreateAttempt env.dimensions]))
    ∧ (env.recreate_result = .otherError →
      recreateStage s env tr
        = .panic "Failed to recreate swapchain" (tr ++ [Effect.recreateAttempt env.dimensions]))
    ∧ (env.recreate_result = .imageExtentNotSupported →
      0 < env.dimensions.width → 0 < env.dimensions.height →
      s.previous_frame_end.isSome →
      redrawTick s env
        = .ret s [Effect.cleanupFinished, Effect.recreateAttempt env.dimensions]) := by
  refine ⟨?_, ?_, ?_, ?_⟩
  · intro i rest h
    simp [recreateStage, hflag, h, window_size_dependent_setup]
  · intro h
    simp [recreateStage, hflag, h]
  · intro h
    simp [recreateStage, hflag, h]
  · intro h hw hh hsome
    obtain ⟨pfe, hpfe⟩ := Option.isSome_iff_exists.mp hsome
    have hdim : ¬(env.dimensions.width = 0 ∨ env.dimensions.height = 0) := by omega
    simp [redrawTick, hdim, hpfe, recreateStage, hflag, h]

theorem C4_witness :
    recreateStage demo_state_needs_recreate demo_env_extent_unsupported []
      = .earlyReturn demo_state_needs_recreate
          [Effect.recreateAttempt demo_env_extent_unsupported.dimensions] :=
  (C4_recreate_error_handling demo_state_needs_recreate demo_env_extent_unsupported []
    (by decide)).2.1 rfl

/-- C9: `previous_frame_end` is `Some` at the start of the loop and at
entry of every redraw iteration: the initial value is `Some`, and from any
state with it `Some`, a redraw tick never hits either of the two unwrap
panics on it and every normal return leaves it `Some` again. -/
theorem C9_previous_frame_end_invariant :
    initial_previous_frame_end.isSome
    ∧ ∀ (s : LoopState) (env : TickEnv), s.previous_frame_end.isSome →
        (∀ m t, redrawTick s env = .panic m t →
          m ≠ "previous_frame_end unwrap" ∧ m ≠ "previous_frame_end take unwrap")
        ∧ (∀ s' t, redrawTick s env = .ret s' t → s'.previous_frame_end.isSome) := by
  refine ⟨rfl, ?_⟩
  intro s env hsome
  constructor
  · intro m t h
    unfold redrawTick at h
    split at h
    · simp at h
    · split at h
      · rename_i heq
        rw [heq] at hsome
        simp at hsome
      · rename_i val heqpfe
        split at h
        · rename_i m0 t0 heq
          injection h with h1 h2
          subst h1
          rcases recreateStage_panic_inv _ _ _ _ _ heq with h' | h' <;> subst h' <;>
            exact ⟨by decide, by decide⟩
        · simp at h
        · rename_i s1 t1 heq
          obtain ⟨hpfe1, _, _⟩ := recreateStage_proceed_inv _ _ _ _ _ heq
          have hsome1 : s1.previous_frame_end.isSome := by
            rw [hpfe1, heqpfe]
            rfl
          rcases acquireStage_panic_inv _ _ _ _ _ h hsome1 with h' | h' <;> subst h' <;>
            exact ⟨by decide, by decide⟩
  · intro s' t h
    unfold redrawTick at h
    split at h
    · injection h with h1 h2
      rw [← h1]
      exact hsome
    · split at h
      · rename_i heq
        rw [heq] at hsome
        simp at hsome
      · rename_i val heqpfe
        split at h
        · simp at h
        · rename_i s1 t1 heq
          injection h with h1 h2
          obtain ⟨hs1, _⟩ := recreateStage_earlyReturn_inv _ _ _ _ _ heq
          rw [← h1, hs1]
          exact hsome
        · rename_i s1 t1 heq
          obtain ⟨hpfe1, _, _⟩ := recreateStage_proceed_inv _ _ _ _ _ heq
          have hsome1 : s1.previous_frame_end.isSome := by
            rw [hpfe1, heqpfe]
            rfl
          exact (acquireStage_ret_inv _ _ _ _ _ h hsome1).1

theorem C9_witness :
    (∀ m t, redrawTick demo_state demo_env_good = .panic m t →
      m ≠ "previous_frame_end unwrap" ∧ m ≠ "previous_frame_end take unwrap")
    ∧ (∀ s' t, redrawTick demo_state demo_env_good = .ret s' t →
        s'.previous_frame_end.isSome) :=
  C9_previous_frame_end_invariant.2 demo_state demo_env_good (by decide)

/-- C1: on a redraw tick with a nonzero-size window that reaches past the
recreate block and acquires an image successfully (no early-return path),
exactly one command buffer is recorded and exactly one is submitted, and
it is the sequence: begin render pass with the fixed clear color, set
viewport, bind pipeline, bind vertex buffer, push constants, one draw call
with vertex-count = vertex-buffer length = 3 and instance-count = 1000,
end render pass. -/
theorem C1_one_frame_per_tick (s : LoopState) (env : TickEnv) (s1 : LoopState)
    (t1 : List Effect) (n : Nat) (subopt : Bool)
    (hw : 0 < env.dimensions.width) (hh : 0 < env.dimensions.height)
    (hsome : s.previous_frame_end.isSome)
    (hr : recreateStage s env [Effect.cleanupFinished] = .proceed s1 t1)
    (ha : env.acquire_result = .ok n subopt)
    (hn : n < s1.framebuffers.length) :
    ∃ s' trace cmds,
      redrawTick s env = .ret s' trace
      ∧ trace.countP Effect.isRecord = 1
      ∧ trace.countP Effect.isSubmit = 1
      ∧ Effect.recordCommands cmds ∈ trace
      ∧ Effect.submitAndPresent cmds n ∈ trace
      ∧ (∃ fb vp pc,
          cmds = [Cmd.beginRenderPass background_color fb, Cmd.setViewport 0 vp,
            Cmd.bindPipelineGraphics, Cmd.bindVertexBuffers 0, Cmd.pushConstants 0 pc,
            Cmd.draw 3 1000 0 0, Cmd.endRenderPass])
      ∧ cmds.countP Cmd.isDraw = 1
      ∧ vertex_buffer.length = 3 ∧ instance_count = 1000 := by
  obtain ⟨pfe, hpfe⟩ := Option.isSome_iff_exists.mp hsome
  have hdim : ¬(env.dimensions.width = 0 ∨ env.dimensions.height = 0) := by omega
  have hred : redrawTick s env = acquireStage s1 env t1 := by
    simp [redrawTick, hdim, hpfe, hr]
  obtain ⟨hpfe1, _, ht1⟩ := recreateStage_proceed_inv _ _ _ _ _ hr
  have hsome1 : s1.previous_frame_end.isSome := by
    rw [hpfe1, hpfe]
    rfl
  obtain ⟨pfe1, hpfe1'⟩ := Option.isSome_iff_exists.mp hsome1
  obtain ⟨fb, hfb⟩ : ∃ fb, s1.framebuffers[n]? = some fb := ⟨_, List.getElem?_eq_getElem hn⟩
  have hcount0r : t1.countP Effect.isRecord = 0 := by
    rcases ht1 with rfl | rfl <;> simp [List.countP_cons, Effect.isRecord]
  have hcount0s : t1.countP Effect.isSubmit = 0 := by
    rcases ht1 with rfl | rfl <;> simp [List.countP_cons, Effect.isSubmit]
  obtain ⟨s', trace, hacq⟩ := acquireStage_ok_ret s1 env t1 n subopt fb pfe1 ha hfb hpfe1'
  obtain ⟨_, htr⟩ := acquireStage_ret_inv _ _ _ _ _ hacq hsome1
  rcases htr with ⟨hood, _⟩ | ⟨cmds0, n0, subopt0, fb0, vp0, pc0, haeq, hshape, hpcval, htrace⟩
  · rw [ha] at hood
    exact absurd hood (by simp)
  · have hn0 : n0 = n := by
      rw [ha] at haeq
      injection haeq with e1 e2
      exact e1.symm
    subst hn0
    refine ⟨s', trace, cmds0, ?_, ?_, ?_, ?_, ?_, ⟨fb0, vp0, pc0, hshape⟩, ?_, rfl, rfl⟩
    · rw [hred]
      exact hacq
    · rcases htrace with rfl | rfl <;>
        simp [List.countP_append, List.countP_cons, hcount0r, Effect.isRecord]
    · rcases htrace with rfl | rfl <;>
        simp [List.countP_append, List.countP_cons, hcount0s, Effect.isSubmit]
    · rcases htrace with rfl | rfl <;> simp
    · rcases htrace with rfl | rfl <;> simp
    · rw [hshape]
      simp [List.countP_cons, Cmd.isDraw]

theorem C1_witness :
    ∃ s' trace cmds,
      redrawTick demo_state demo_env_good = .ret s' trace
      ∧ trace.countP Effect.isRecord = 1
      ∧ trace.countP Effect.isSubmit = 1
      ∧ Effect.recordCommands cmds ∈ trace
      ∧ Effect.submitAndPresent cmds 0 ∈ trace
      ∧ (∃ fb vp pc,
          cmds = [Cmd.beginRenderPass background_color fb, Cmd.setViewport 0 vp,
            Cmd.bindPipelineGraphics, Cmd.bindVertexBuffers 0, Cmd.pushConstants 0 pc,
            Cmd.draw 3 1000 0 0, Cmd.endRenderPass])
      ∧ cmds.countP Cmd.isDraw = 1
      ∧ vertex_buffer.length = 3 ∧ instance_count = 1000 :=
  C1_one_frame_per_tick demo_state demo_env_good demo_state [Effect.cleanupFinished] 0 false
    (by decide) (by decide) (by decide) (by decide) rfl (by decide)

theorem pick_min_fold_mem (cs : List (PhysDevice × QueueFamily))
    (c : PhysDevice × QueueFamily) : pick_min_fold c cs ∈ c :: cs := by
  induction cs generalizing c with
  | nil => simp [pick_min_fold]
  | cons d cs ih =>
    have h1 : pick_min_fold c (d :: cs)
        = pick_min_fold (if candidate_rank d < candidate_rank c then d else c) cs := rfl
    rw [h1]
    rcases List.mem_cons.mp (ih (if candidate_rank d < candidate_rank c then d else c))
      with h3 | h3
    · rw [h3]
      by_cases hlt : candidate_rank d < candidate_rank c
      · simp [hlt]
      · simp [hlt]
    · exact List.mem_cons_of_mem _ (List.mem_cons_of_mem _ h3)

theorem pick_min_fold_le (cs : List (PhysDevice × QueueFamily)) :
    ∀ c x, x ∈ c :: cs → candidate_rank (pick_min_fold c cs) ≤ candidate_rank x := by
  induction cs with
  | nil =>
    intro c x hx
    rcases List.mem_cons.mp hx with hxc | h
    · subst hxc
      simp [pick_min_fold]
    · simp at h
  | cons d cs ih =>
    intro c x hx
    rw [show pick_min_fold c (d :: cs)
        = pick_min_fold (if candidate_rank d < candidate_rank c then d else c) cs from rfl]
    rcases List.mem_cons.mp hx with hxc | hx1
    · subst hxc
      refine le_trans (ih _ _ (List.mem_cons_self _ _)) ?_
      by_cases hlt : candidate_rank d < candidate_rank x
      · rw [if_pos hlt]
        omega
      · rw [if_neg hlt]
    · rcases List.mem_cons.mp hx1 with hxd | hx2
      · subst hxd
        refine le_trans (ih _ _ (List.mem_cons_self _ _)) ?_
        by_cases hlt : candidate_rank x < candidate_rank c
        · rw [if_pos hlt]
        · rw [if_neg hlt]
          omega
      · exact ih _ x (List.mem_cons_of_mem _ hx2)

theorem mem_device_candidates (devices : List PhysDevice) (d : PhysDevice) (qf : QueueFamily)
    (h : (d, qf) ∈ device_candidates devices) :
    d ∈ devices ∧ d.supports_required_extensions = true ∧ qf ∈ d.queue_families
      ∧ queue_family_suitable qf = true := by
  unfold device_candidates at h
  rw [List.mem_filterMap] at h
  obtain ⟨a, ha, hfa⟩ := h
  rw [Option.map_eq_some'] at hfa
  obtain ⟨qf0, hfind, heq⟩ := hfa
  injection heq with e1 e2
  subst e1
  subst e2
  rw [List.mem_filter] at ha
  exact ⟨ha.1, ha.2, List.mem_of_find?_eq_some hfind, List.find?_some hfind⟩

theorem passes_mem_candidates (devices : List PhysDevice) (d : PhysDevice)
    (hd : d ∈ devices) (hp : device_passes d = true) :
    ∃ qf, (d, qf) ∈ device_candidates devices := by
  unfold device_passes at hp
  rw [Bool.and_eq_true] at hp
  obtain ⟨hext, hany⟩ := hp
  have hfs : (d.queue_families.find? queue_family_suitable).isSome := by
    rw [List.find?_isSome]
    rw [List.any_eq_true] at hany
    exact hany
  obtain ⟨qf, hqf⟩ := Option.isSome_iff_exists.mp hfs
  refine ⟨qf, ?_⟩
  unfold device_candidates
  rw [List.mem_filterMap]
  exact ⟨d, List.mem_filter.mpr ⟨hd, hext⟩, by rw [hqf]; rfl⟩

theorem device_candidates_nil_iff (devices : List PhysDevice) :
    device_candidates devices = [] ↔ ∀ d ∈ devices, device_passes d = false := by
  constructor
  · intro h d hd
    cases hdp : device_passes d
    · rfl
    · obtain ⟨qf, hqf⟩ := passes_mem_candidates devices d hd hdp
      rw [h] at hqf
      simp at hqf
  · intro h
    by_contra hne
    obtain ⟨c, hc⟩ : ∃ c, c ∈ device_candidates devices := by
      cases hcs : device_candidates devices with
      | nil => exact absurd hcs hne
      | cons a as => exact ⟨a, List.mem_cons_self _ _⟩
    obtain ⟨d0, qf0⟩ := c
    obtain ⟨hd, hext, hqf, hsuit⟩ := mem_device_candidates devices d0 qf0 hc
    have hfalse := h d0 hd
    have hany : d0.queue_families.any queue_family_suitable = true :=
      List.any_eq_true.mpr ⟨qf0, hqf, hsuit⟩
    rw [device_passes, hext, hany] at hfalse
    simp at hfalse

theorem min_by_rank_none_iff (l : List (PhysDevice × QueueFamily)) :
    min_by_rank l = none ↔ l = [] := by
  cases l <;> simp [min_by_rank]

theorem min_by_rank_spec (l : List (PhysDevice × QueueFamily))
    (c : PhysDevice × QueueFamily) (h : min_by_rank l = some c) :
    c ∈ l ∧ ∀ x ∈ l, candidate_rank c ≤ candidate_rank x := by
  cases l with
  | nil => simp [min_by_rank] at h
  | cons a as =>
    simp [min_by_rank] at h
    subst h
    exact ⟨pick_min_fold_mem as a, fun x hx => pick_min_fold_le as a x hx⟩

/-- C7: adapter selection keeps only adapters supporting the required
extensions with at least one queue family supporting both graphics and
presentation, and among those picks one of minimal rank under
discrete(0) < integrated(1) < virtual(2) < cpu(3) < other(4); if no
adapter/queue pair passes, the selection is `none` (the `unwrap` panics). -/
theorem C7_device_selection (devices : List PhysDevice) :
    (select_physical_device devices = none ↔ ∀ d ∈ devices, device_passes d = false)
    ∧ ∀ d qf, select_physical_device devices = some (d, qf) →
        d ∈ devices ∧ d.supports_required_extensions = true
        ∧ qf ∈ d.queue_families ∧ qf.supports_graphics = true
        ∧ qf.supports_surface.getD false = true
        ∧ ∀ d' ∈ devices, device_passes d' = true →
            device_type_rank d.device_type ≤ device_type_rank d'.device_type := by
  constructor
  · rw [select_physical_device, min_by_rank_none_iff]
    exact device_candidates_nil_iff devices
  · intro d qf h
    obtain ⟨hmem, hmin⟩ := min_by_rank_spec (device_candidates devices) (d, qf) h
    obtain ⟨hd, hext, hqfm, hsuit⟩ := mem_device_candidates devices d qf hmem
    rw [queue_family_suitable, Bool.and_eq_true] at hsuit
    refine ⟨hd, hext, hqfm, hsuit.1, hsuit.2, ?_⟩
    intro d' hd' hp'
    obtain ⟨qf', hqf'⟩ := passes_mem_candidates devices d' hd' hp'
    simpa [candidate_rank] using hmin (d', qf') hqf'

theorem C7_witness :
    demo_discrete ∈ [demo_integrated, demo_discrete]
    ∧ demo_discrete.supports_required_extensions = true
    ∧ demo_qf ∈ demo_discrete.queue_families
    ∧ demo_qf.supports_graphics = true
    ∧ demo_qf.supports_surface.getD false = true
    ∧ ∀ d' ∈ [demo_integrated, demo_discrete], device_passes d' = true →
        device_type_rank demo_discrete.device_type ≤ device_type_rank d'.device_type :=
  (C7_device_selection [demo_integrated, demo_discrete]).2 demo_discrete demo_qf (by decide)

/-- C8 counterexample: the claim as stated asserts the stored normalized
mouse position always lies in `[0,1]`, but a cursor-move event reporting a
position beyond the window's size stores a value outside `[0,1]`:
at window size 100x100 and event position (200, 50), the stored x becomes
2. -/
theorem C8_counterexample :
    (cursorMoved demo_state ⟨100, 100⟩ (F64.finite 200) (F64.finite 50)).mouse_pos.1
      = F64.finite 2
    ∧ F64.inUnit
        ((cursorMoved demo_state ⟨100, 100⟩ (F64.finite 200) (F64.finite 50)).mouse_pos.1)
      = false := by
  constructor
  · show F64.div (F64.finite 200) (F64.ofNat 100) = F64.finite 2
    rw [F64.ofNat, F64.div]
    norm_num
  · rw [show (cursorMoved demo_state ⟨100, 100⟩ (F64.finite 200) (F64.finite 50)).mouse_pos.1
        = F64.div (F64.finite 200) (F64.ofNat 100) from rfl]
    rw [F64.ofNat, F64.div]
    norm_num [F64.inUnit]

/-- C8 (amended): for every cursor-move event reporting position
(px, py) with 0 ≤ px ≤ W and 0 ≤ py ≤ H while the window's drawable size
is (W, H) with W > 0 and H > 0, the stored normalized mouse position
becomes exactly (px/W, py/H), a value in `[0,1]` in each coordinate, and
the very next recorded frame's push constants carry this latest stored
value (cast to f32), never a stale earlier value. -/
theorem C8_mouse_normalization (s : LoopState) (W H : Nat) (qx qy : ℚ)
    (hW : 0 < W) (hH : 0 < H)
    (hx0 : 0 ≤ qx) (hxW : qx ≤ (W : ℚ)) (hy0 : 0 ≤ qy) (hyH : qy ≤ (H : ℚ)) :
    (cursorMoved s ⟨W, H⟩ (F64.finite qx) (F64.finite qy)).mouse_pos
      = (F64.finite (qx / (W : ℚ)), F64.finite (qy / (H : ℚ)))
    ∧ F64.inUnit (F64.finite (qx / (W : ℚ))) = true
    ∧ F64.inUnit (F64.finite (qy / (H : ℚ))) = true
    ∧ ∀ (env : TickEnv) (s' : LoopState) (trace : List Effect) (cmds : List Cmd),
        redrawTick (cursorMoved s ⟨W, H⟩ (F64.finite qx) (F64.finite qy)) env = .ret s' trace →
        Effect.recordCommands cmds ∈ trace →
        Cmd.pushConstants 0
          { time := env.elapsed_time
            x := f64_as_f32 (F64.finite (qx / (W : ℚ)))
            y := f64_as_f32 (F64.finite (qy / (H : ℚ))) } ∈ cmds := by
  have hWq : (0 : ℚ) < (W : ℚ) := by exact_mod_cast hW
  have hHq : (0 : ℚ) < (H : ℚ) := by exact_mod_cast hH
  have hmp : (cursorMoved s ⟨W, H⟩ (F64.finite qx) (F64.finite qy)).mouse_pos
      = (F64.finite (qx / (W : ℚ)), F64.finite (qy / (H : ℚ))) := by
    simp [cursorMoved, F64.div, F64.ofNat, hWq.ne', hHq.ne']
  refine ⟨hmp, ?_, ?_, ?_⟩
  · simp only [F64.inUnit, decide_eq_true_eq]
    exact ⟨div_nonneg hx0 hWq.le, (div_le_one hWq).mpr hxW⟩
  · simp only [F64.inUnit, decide_eq_true_eq]
    exact ⟨div_nonneg hy0 hHq.le, (div_le_one hHq).mpr hyH⟩
  · intro env s' trace cmds hret hcrec
    have hx := redrawTick_record_pc _ env s' trace cmds hret hcrec
    rw [hmp] at hx
    exact hx

theorem C8_witness :
    (cursorMoved demo_state ⟨200, 100⟩ (F64.finite 50) (F64.finite 25)).mouse_pos
      = (F64.finite (50 / ((200 : Nat) : ℚ)), F64.finite (25 / ((100 : Nat) : ℚ))) :=
  (C8_mouse_normalization demo_state 200 100 50 25 (by decide) (by decide)
    (by norm_num) (by norm_num) (by norm_num) (by norm_num)).1

/-- C10: the cursor-move handler divides by the window size with no zero
guard: a cursor-move delivered while the drawable width (resp. height) is
0 stores a non-finite x (resp. y) coordinate rather than raising an error,
and the stored value is passed unchanged (through the f32 cast) into the
next recorded frame's push constants. -/
theorem C10_division_by_zero_size (s : LoopState) (W H : Nat) (qx qy : ℚ) (s' : LoopState)
    (hs : s' = cursorMoved s ⟨W, H⟩ (F64.finite qx) (F64.finite qy)) :
    (W = 0 → s'.mouse_pos.1.isFinite = false)
    ∧ (H = 0 → s'.mouse_pos.2.isFinite = false)
    ∧ ∀ (env : TickEnv) (s'' : LoopState) (trace : List Effect) (cmds : List Cmd),
        redrawTick s' env = .ret s'' trace →
        Effect.recordCommands cmds ∈ trace →
        Cmd.pushConstants 0
          { time := env.elapsed_time
            x := f64_as_f32 s'.mouse_pos.1
            y := f64_as_f32 s'.mouse_pos.2 } ∈ cmds := by
  subst hs
  refine ⟨?_, ?_, ?_⟩
  · intro hW
    subst hW
    show (F64.div (F64.finite qx) (F64.ofNat 0)).isFinite = false
    rw [F64.ofNat, F64.div]
    simp only [Nat.cast_zero, if_pos rfl]
    split_ifs <;> rfl
  · intro hH
    subst hH
    show (F64.div (F64.finite qy) (F64.ofNat 0)).isFinite = false
    rw [F64.ofNat, F64.div]
    simp only [Nat.cast_zero, if_pos rfl]
    split_ifs <;> rfl
  · intro env s'' trace cmds h1 h2
    exact redrawTick_record_pc _ env s'' trace cmds h1 h2

theorem C10_witness :
    (cursorMoved demo_state ⟨0, 100⟩ (F64.finite 3) (F64.finite 4)).mouse_pos.1.isFinite
      = false :=
  (C10_division_by_zero_size demo_state 0 100 3 4
    (cursorMoved demo_state ⟨0, 100⟩ (F64.finite 3) (F64.finite 4)) rfl).1 rfl

end CoolVulkano
